import Mathlib

/-!
Verification development for the classroom-manager backend
(src/backend/src/app).  The data model, repositories and services are
shallowly embedded: a database snapshot is a record of entity lists, the
SQLAlchemy query first() becomes List.find?, each committed mutation
becomes a pure state update, and a Python ValueError becomes the error
side of Except String.  Python truthiness of optional arguments and the
Python semantics of the operator in (element equality, where an int never
equals a model instance) are embedded explicitly.  Error message strings
follow the source, with the decorative quote characters of the f-strings
omitted.
-/

/-- Values as compared by the Python operators == and in at the sites the
embedding needs: None, an int, or a model instance (identified by its
class name and primary key, matching the SQLAlchemy identity map). -/
inductive PyVal where
  | vNone : PyVal
  | vInt : Int → PyVal
  | vObj : String → Int → PyVal
deriving Repr, DecidableEq

/-- Python equality for the embedded values: ints compare by value,
model instances by identity, and an int is never equal to a model
instance (neither defines a cross-type eq, so Python falls back to
identity, which fails). -/
def pyEq : PyVal → PyVal → Bool
  | .vNone, .vNone => true
  | .vInt a, .vInt b => a == b
  | .vObj c a, .vObj d b => c == d && a == b
  | _, _ => false

/-- The Python membership test x in l. -/
def pyIn (x : PyVal) (l : List PyVal) : Bool :=
  l.any (fun y => pyEq x y)

/-- Truthiness of an optional string argument (None and the empty string
are falsy). -/
def truthyStr : Option String → Bool
  | none => false
  | some s => s.length != 0

/-- Truthiness of an optional int argument (None and 0 are falsy). -/
def truthyInt : Option Int → Bool
  | none => false
  | some n => n != 0

/-- Truthiness of an optional bool argument (None and False are falsy). -/
def truthyBool : Option Bool → Bool
  | none => false
  | some b => b

/-- Truthiness of an optional list argument (None and the empty list are
falsy). -/
def truthyList {α : Type} : Option (List α) → Bool
  | none => false
  | some l => l.length != 0

/-- User row (models/user_model.py).  Dates are embedded as integers. -/
structure User where
  id : Int
  first_name : String
  last_name : String
  login : String
  registration_date : Int
  is_admin : Bool
  department_id : Option Int
deriving Repr, DecidableEq

/-- Building row (models/building_model.py). -/
structure Building where
  id : Int
  name : String
  address : String
deriving Repr, DecidableEq

/-- Department row (models/department_model.py).  manager_id is a plain
nullable integer column without a foreign-key constraint. -/
structure Department where
  id : Int
  full_name : String
  code_name : String
  manager_id : Option Int
deriving Repr, DecidableEq

/-- Classroom row (models/classroom_model.py). -/
structure Classroom where
  id : Int
  name : String
  floor : Int
  is_private : Bool
  building_id : Option Int
  department_id : Option Int
  manager_id : Option Int
deriving Repr, DecidableEq

/-- Request row (models/request_model.py). -/
structure Request where
  id : Int
  start_date : Int
  end_date : Int
  registration_date : Int
  is_approved : Bool
  author_id : Option Int
  classroom_id : Option Int
deriving Repr, DecidableEq

/-- A database snapshot: the five entity tables, the two association
tables (models/associations.py), autoincrement counters for the tables
the embedded services insert into, and the server clock read by
datetime.now(). -/
structure DB where
  users : List User
  buildings : List Building
  departments : List Department
  classrooms : List Classroom
  requests : List Request
  occupied : List (Int × Int)
  requesting : List (Int × Int)
  request_seq : Int
  building_seq : Int
  now : Int
deriving Repr, DecidableEq

/-- UserRepository.get_user_by_login: query(User).filter_by(login=login).first(). -/
def get_user_by_login (db : DB) (login : String) : Option User :=
  db.users.find? (fun u => u.login == login)

/-- UserRepository.get_user_by_id.  The argument may be None (a nullable
foreign key flows in unchecked); no row matches a None id. -/
def get_user_by_id (db : DB) (i : Option Int) : Option User :=
  match i with
  | none => none
  | some n => db.users.find? (fun u => u.id == n)

/-- BuildingRepository.get_building_by_id. -/
def get_building_by_id (db : DB) (i : Option Int) : Option Building :=
  match i with
  | none => none
  | some n => db.buildings.find? (fun b => b.id == n)

/-- BuildingRepository.get_building_by_name: the FIRST building with the
given name. -/
def get_building_by_name (db : DB) (name : String) : Option Building :=
  db.buildings.find? (fun b => b.name == name)

/-- BuildingRepository.get_building_by_address: the FIRST building with
the given address. -/
def get_building_by_address (db : DB) (address : String) : Option Building :=
  db.buildings.find? (fun b => b.address == address)

/-- DepartmentRepository.get_department_by_id. -/
def get_department_by_id (db : DB) (i : Option Int) : Option Department :=
  match i with
  | none => none
  | some n => db.departments.find? (fun d => d.id == n)

/-- ClassroomRepository.get_classroom_by_id. -/
def get_classroom_by_id (db : DB) (i : Option Int) : Option Classroom :=
  match i with
  | none => none
  | some n => db.classrooms.find? (fun c => c.id == n)

/-- RequestRepository.get_request_by_id. -/
def get_request_by_id (db : DB) (i : Option Int) : Option Request :=
  match i with
  | none => none
  | some n => db.requests.find? (fun r => r.id == n)

/-- User.get_managed_classrooms: the relationship over Classroom.manager_id,
a list of Classroom model instances. -/
def get_managed_classrooms (db : DB) (u : User) : List Classroom :=
  db.classrooms.filter (fun c => c.manager_id == some u.id)

/-- User.get_occupied_classrooms: the many-to-many relationship through
user_occupied_classroom_association, a list of Classroom model instances. -/
def get_occupied_classrooms (db : DB) (u : User) : List Classroom :=
  db.classrooms.filter (fun c => db.occupied.any (fun p => p.1 == u.id && p.2 == c.id))

/-- A Classroom model instance as a Python value (identity map). -/
def classroomObj (c : Classroom) : PyVal :=
  .vObj "Classroom" c.id

/-- An id value as passed around in Python: either None or an int. -/
def optPy : Option Int → PyVal
  | none => .vNone
  | some n => .vInt n

namespace UserRepository

/-- UserRepository.validate_name: 0 < len(name) <= 100. -/
def validate_name (name : String) : Bool :=
  0 < name.length && name.length ≤ 100

/-- UserRepository.validate_login: 0 < len(login) <= 50. -/
def validate_login (login : String) : Bool :=
  0 < login.length && login.length ≤ 50

end UserRepository

namespace BuildingRepository

/-- BuildingRepository.validate_name: 0 < len(name) <= 50. -/
def validate_name (name : String) : Bool :=
  0 < name.length && name.length ≤ 50

/-- BuildingRepository.validate_address: 0 < len(address) <= 100. -/
def validate_address (address : String) : Bool :=
  0 < address.length && address.length ≤ 100

end BuildingRepository

namespace ClassroomRepository

/-- ClassroomRepository.validate_name: 0 < len(name) <= 50. -/
def validate_name (name : String) : Bool :=
  0 < name.length && name.length ≤ 50

end ClassroomRepository

namespace DepartmentRepository

/-- DepartmentRepository.validate_full_name: 0 < len(full_name) <= 100. -/
def validate_full_name (full_name : String) : Bool :=
  0 < full_name.length && full_name.length ≤ 100

/-- DepartmentRepository.validate_code_name: 0 < len(code_name) <= 50. -/
def validate_code_name (code_name : String) : Bool :=
  0 < code_name.length && code_name.length ≤ 50

end DepartmentRepository

namespace RequestRepository

/-- RequestRepository.validate_dates: start_date < end_date. -/
def validate_dates (start_date end_date : Int) : Bool :=
  decide (start_date < end_date)

end RequestRepository

/-- AuthenticationService.is_user_admin: True for an existing admin,
ValueError otherwise. -/
def is_user_admin (db : DB) (login : String) : Except String Bool :=
  match get_user_by_login db login with
  | none => .error "User with such login does not exist."
  | some user =>
    if !user.is_admin then .error "Access denied. User is not an administrator."
    else .ok true

/-- AuthenticationService.is_user_classroom_occupant: the Python test
classroom_id in current_user.get_occupied_classrooms() compares the id
against Classroom model instances. -/
def is_user_classroom_occupant (db : DB) (login : String) (classroom_id : Option Int) :
    Except String Bool :=
  match get_user_by_login db login with
  | none => .error "Invalid login."
  | some u => .ok (pyIn (optPy classroom_id) ((get_occupied_classrooms db u).map classroomObj))

/-- AuthenticationService.is_user_classroom_manager: the Python test
classroom_id in current_user.get_managed_classrooms() compares the id
against Classroom model instances. -/
def is_user_classroom_manager (db : DB) (login : String) (classroom_id : Option Int) :
    Except String Bool :=
  match get_user_by_login db login with
  | none => .error "Invalid login."
  | some u => .ok (pyIn (optPy classroom_id) ((get_managed_classrooms db u).map classroomObj))

/-- AuthenticationService.is_user_manager_of_department_by_classroom:
resolve the classroom, then its department, then compare the department
manager id with the user id. -/
def is_user_manager_of_department_by_classroom (db : DB) (login : String)
    (classroom_id : Option Int) : Except String Bool :=
  match get_user_by_login db login with
  | none => .error "Invalid login."
  | some current_user =>
    match get_classroom_by_id db classroom_id with
    | none => .error "Classroom does not exist."
    | some classroom =>
      match get_department_by_id db classroom.department_id with
      | none => .error "Department does not exist."
      | some department => .ok (department.manager_id == some current_user.id)

/-- AuthenticationService.is_user_classroom_manager_in_request: resolve
the request, take its classroom id, delegate to is_user_classroom_manager. -/
def is_user_classroom_manager_in_request (db : DB) (login : String) (request_id : Int) :
    Except String Bool :=
  match get_user_by_login db login with
  | none => .error "Invalid login."
  | some _ =>
    match get_request_by_id db (some request_id) with
    | none => .error "Request does not exist."
    | some request => is_user_classroom_manager db login request.classroom_id

/-- AuthenticationService.is_user_department_manager_in_request: resolve
the request, its classroom, take the department id of that classroom and
pass it to is_user_manager_of_department_by_classroom, exactly as the
source does (the department id is handed to a parameter that is looked
up as a classroom id). -/
def is_user_department_manager_in_request (db : DB) (login : String) (request_id : Int) :
    Except String Bool :=
  match get_user_by_login db login with
  | none => .error "Invalid login."
  | some _ =>
    match get_request_by_id db (some request_id) with
    | none => .error "Request does not exist."
    | some request =>
      match get_classroom_by_id db request.classroom_id with
      | none => .error "Classroom does not exist."
      | some classroom =>
        is_user_manager_of_department_by_classroom db login classroom.department_id

/-- The try/except ValueError: pass pattern of the composite checks: a
check that throws counts as False. -/
def try_check : Except String Bool → Bool
  | .ok b => b
  | .error _ => false

/-- AuthenticationService.is_user_admin_or_manager_of_department_by_classroom. -/
def is_user_admin_or_manager_of_department_by_classroom (db : DB) (login : String)
    (classroom_id : Option Int) : Except String Bool :=
  if try_check (is_user_admin db login) then .ok true
  else if try_check (is_user_manager_of_department_by_classroom db login classroom_id) then .ok true
  else .error "Access denied. User is neither an administrator nor a manager of the specified department."

/-- AuthenticationService.is_user_admin_or_manager_in_request. -/
def is_user_admin_or_manager_in_request (db : DB) (login : String) (request_id : Int) :
    Except String Bool :=
  if try_check (is_user_admin db login) then .ok true
  else if try_check (is_user_classroom_manager_in_request db login request_id) then .ok true
  else if try_check (is_user_department_manager_in_request db login request_id) then .ok true
  else .error "Access denied. User does not have the necessary administrative or managerial rights for the request."

namespace User

/-- User.set_first_name followed by the session commit: updates the row
of the given user in place. -/
def set_first_name (db : DB) (u : User) (new_first_name : String) : DB :=
  { db with users := db.users.map (fun v => if v.id == u.id then { v with first_name := new_first_name } else v) }

/-- User.set_last_name followed by the session commit. -/
def set_last_name (db : DB) (u : User) (new_last_name : String) : DB :=
  { db with users := db.users.map (fun v => if v.id == u.id then { v with last_name := new_last_name } else v) }

/-- User.set_department followed by the session commit: the relationship
assignment updates the department_id column. -/
def set_department (db : DB) (u : User) (new_department_id : Option Int) : DB :=
  { db with users := db.users.map (fun v => if v.id == u.id then { v with department_id := new_department_id } else v) }

/-- User.set_occupied_classrooms followed by the session commit
(UserRepository.update_user_occupied_classrooms): the association rows of
the user are replaced by one row per given classroom. -/
def set_occupied_classrooms (db : DB) (u : User) (classrooms : List Classroom) : DB :=
  { db with occupied := db.occupied.filter (fun p => !(p.1 == u.id))
      ++ classrooms.map (fun c => (u.id, c.id)) }

end User

namespace Department

/-- Department.set_full_name followed by the session commit
(DepartmentRepository.update_department_full_name). -/
def set_full_name (db : DB) (d : Department) (new_full_name : String) : DB :=
  { db with departments := db.departments.map (fun v => if v.id == d.id then { v with full_name := new_full_name } else v) }

/-- Department.set_code_name followed by the session commit
(DepartmentRepository.update_department_code_name). -/
def set_code_name (db : DB) (d : Department) (new_code_name : String) : DB :=
  { db with departments := db.departments.map (fun v => if v.id == d.id then { v with code_name := new_code_name } else v) }

/-- Department.set_manager_id followed by the session commit
(DepartmentRepository.update_department_manager): stores the plain id. -/
def set_manager_id (db : DB) (d : Department) (user_id : Option Int) : DB :=
  { db with departments := db.departments.map (fun v => if v.id == d.id then { v with manager_id := user_id } else v) }

end Department

namespace Classroom

/-- Classroom.set_name followed by the session commit. -/
def set_name (db : DB) (c : Classroom) (new_name : String) : DB :=
  { db with classrooms := db.classrooms.map (fun v => if v.id == c.id then { v with name := new_name } else v) }

/-- Classroom.set_building followed by the session commit. -/
def set_building (db : DB) (c : Classroom) (new_building_id : Option Int) : DB :=
  { db with classrooms := db.classrooms.map (fun v => if v.id == c.id then { v with building_id := new_building_id } else v) }

/-- Classroom.set_department followed by the session commit. -/
def set_department (db : DB) (c : Classroom) (new_department_id : Option Int) : DB :=
  { db with classrooms := db.classrooms.map (fun v => if v.id == c.id then { v with department_id := new_department_id } else v) }

/-- Classroom.set_manager followed by the session commit. -/
def set_manager (db : DB) (c : Classroom) (new_manager_id : Option Int) : DB :=
  { db with classrooms := db.classrooms.map (fun v => if v.id == c.id then { v with manager_id := new_manager_id } else v) }

/-- Classroom.set_is_private followed by the session commit. -/
def set_is_private (db : DB) (c : Classroom) (b : Bool) : DB :=
  { db with classrooms := db.classrooms.map (fun v => if v.id == c.id then { v with is_private := b } else v) }

end Classroom

namespace Request

/-- Request.set_is_approved followed by the session commit
(RequestRepository.update_request_approval). -/
def set_is_approved (db : DB) (r : Request) (b : Bool) : DB :=
  { db with requests := db.requests.map (fun v => if v.id == r.id then { v with is_approved := b } else v) }

/-- Request.set_author followed by the session commit
(RequestRepository.update_request_author). -/
def set_author (db : DB) (r : Request) (author_id : Option Int) : DB :=
  { db with requests := db.requests.map (fun v => if v.id == r.id then { v with author_id := author_id } else v) }

/-- Request.set_classroom followed by the session commit
(RequestRepository.update_request_classroom). -/
def set_classroom (db : DB) (r : Request) (classroom_id : Option Int) : DB :=
  { db with requests := db.requests.map (fun v => if v.id == r.id then { v with classroom_id := classroom_id } else v) }

/-- Request.set_requesting_users followed by the session commit
(RequestRepository.update_requesting_users): the association rows of the
request are replaced by one row per given user. -/
def set_requesting_users (db : DB) (r : Request) (users : List User) : DB :=
  { db with requesting := db.requesting.filter (fun p => !(p.2 == r.id))
      ++ users.map (fun u => (u.id, r.id)) }

end Request

/-- BuildingRepository.create_building: inserts a fresh row, the id
coming from the autoincrement sequence. -/
def create_building_row (db : DB) (name address : String) : DB × Building :=
  let b : Building := { id := db.building_seq, name := name, address := address }
  ({ db with buildings := db.buildings ++ [b], building_seq := db.building_seq + 1 }, b)

/-- BuildingService.create_building.  The source raises the conflict only
inside the nested test: both lookups found a record and the two records
have the same id; otherwise it falls through to the insert. -/
def create_building (db : DB) (name address : String) : DB × Except String Building :=
  if !(BuildingRepository.validate_name name) then
    (db, .error "Invalid name length. Name must be 1-50 characters long.")
  else if !(BuildingRepository.validate_address address) then
    (db, .error "Invalid address length. Address must be 1-100 characters long.")
  else
    match get_building_by_name db name, get_building_by_address db address with
    | some existing_by_name, some existing_by_address =>
      if existing_by_name.id == existing_by_address.id then
        (db, .error ("A building with the name " ++ name ++ " at address "
          ++ address ++ " already exists."))
      else
        let p := create_building_row db name address
        (p.1, .ok p.2)
    | _, _ =>
      let p := create_building_row db name address
      (p.1, .ok p.2)

/-- The loop of UserService.update_user over new_occupied_classroom_ids:
resolve each id, raising at the first missing classroom. -/
def resolve_classroom_ids (db : DB) : List Int → Except String (List Classroom)
  | [] => .ok []
  | classroom_id :: rest =>
    match get_classroom_by_id db (some classroom_id) with
    | none => .error ("No classroom found with ID: " ++ toString classroom_id)
    | some c =>
      match resolve_classroom_ids db rest with
      | .error e => .error e
      | .ok cs => .ok (c :: cs)

/-- UserService.update_user.  Every field setter commits immediately, so
an error raised by a later field leaves the changes of the earlier
fields in the returned database state. -/
def update_user (db : DB) (user_id : Int) (new_first_name new_last_name : Option String)
    (new_department_id : Option Int) (new_occupied_classroom_ids : Option (List Int)) :
    DB × Except String User :=
  match get_user_by_id db (some user_id) with
  | none => (db, .error ("No user found with ID: " ++ toString user_id))
  | some user0 =>
    if truthyStr new_first_name
        && !(UserRepository.validate_name (new_first_name.getD "")) then
      (db, .error "Invalid first name length. Name must be 1-100 characters long.")
    else
    let user1 := if truthyStr new_first_name
      then { user0 with first_name := new_first_name.getD "" } else user0
    let db1 := if truthyStr new_first_name
      then User.set_first_name db user0 (new_first_name.getD "") else db
    if truthyStr new_last_name
        && !(UserRepository.validate_name (new_last_name.getD "")) then
      (db1, .error "Invalid last name length. Name must be 1-100 characters long.")
    else
    let user2 := if truthyStr new_last_name
      then { user1 with last_name := new_last_name.getD "" } else user1
    let db2 := if truthyStr new_last_name
      then User.set_last_name db1 user1 (new_last_name.getD "") else db1
    if truthyInt new_department_id
        && (get_department_by_id db2 new_department_id).isNone then
      (db2, .error ("No department found with ID: " ++ toString (new_department_id.getD 0)))
    else
    let user3 := if truthyInt new_department_id
      then { user2 with department_id := new_department_id } else user2
    let db3 := if truthyInt new_department_id
      then User.set_department db2 user2 new_department_id else db2
    if truthyList new_occupied_classroom_ids then
      match resolve_classroom_ids db3 (new_occupied_classroom_ids.getD []) with
      | .error e => (db3, .error e)
      | .ok cs => (User.set_occupied_classrooms db3 user3 cs, .ok user3)
    else (db3, .ok user3)

/-- DepartmentService.update_department.  The manager branch resolves the
user by id and raises if the user does not exist, before storing the id. -/
def update_department (db : DB) (department_id : Int)
    (new_full_name new_code_name : Option String) (new_manager_id : Option Int) :
    DB × Except String Department :=
  match get_department_by_id db (some department_id) with
  | none => (db, .error ("No department found with ID: " ++ toString department_id))
  | some d0 =>
    if truthyStr new_full_name
        && !(DepartmentRepository.validate_full_name (new_full_name.getD "")) then
      (db, .error "Invalid full name length. Full name must be 1-100 characters long.")
    else
    let d1 := if truthyStr new_full_name
      then { d0 with full_name := new_full_name.getD "" } else d0
    let db1 := if truthyStr new_full_name
      then Department.set_full_name db d0 (new_full_name.getD "") else db
    if truthyStr new_code_name
        && !(DepartmentRepository.validate_code_name (new_code_name.getD "")) then
      (db1, .error "Invalid code name length. Code name must be 1-50 characters long.")
    else
    let d2 := if truthyStr new_code_name
      then { d1 with code_name := new_code_name.getD "" } else d1
    let db2 := if truthyStr new_code_name
      then Department.set_code_name db1 d1 (new_code_name.getD "") else db1
    if truthyInt new_manager_id && (get_user_by_id db2 new_manager_id).isNone then
      (db2, .error ("No manager found with ID: " ++ toString (new_manager_id.getD 0)))
    else
    let d3 := if truthyInt new_manager_id
      then { d2 with manager_id := new_manager_id } else d2
    let db3 := if truthyInt new_manager_id
      then Department.set_manager_id db2 d2 new_manager_id else db2
    (db3, .ok d3)

/-- ClassroomService.update_classroom.  The is_private branch is guarded
by the Python truthiness of the argument, so False is skipped. -/
def update_classroom (db : DB) (classroom_id : Int) (new_name : Option String)
    (new_building_id new_department_id new_manager_id : Option Int)
    (new_is_private : Option Bool) : DB × Except String Classroom :=
  match get_classroom_by_id db (some classroom_id) with
  | none => (db, .error ("No classroom found with ID: " ++ toString classroom_id))
  | some c0 =>
    if truthyStr new_name && !(ClassroomRepository.validate_name (new_name.getD "")) then
      (db, .error "Invalid name length. Name must be 1-50 characters long.")
    else
    let c1 := if truthyStr new_name then { c0 with name := new_name.getD "" } else c0
    let db1 := if truthyStr new_name then Classroom.set_name db c0 (new_name.getD "") else db
    if truthyInt new_building_id && (get_building_by_id db1 new_building_id).isNone then
      (db1, .error ("No building found with ID: " ++ toString (new_building_id.getD 0)))
    else
    let c2 := if truthyInt new_building_id
      then { c1 with building_id := new_building_id } else c1
    let db2 := if truthyInt new_building_id
      then Classroom.set_building db1 c1 new_building_id else db1
    if truthyInt new_department_id && (get_department_by_id db2 new_department_id).isNone then
      (db2, .error ("No department found with ID: " ++ toString (new_department_id.getD 0)))
    else
    let c3 := if truthyInt new_department_id
      then { c2 with department_id := new_department_id } else c2
    let db3 := if truthyInt new_department_id
      then Classroom.set_department db2 c2 new_department_id else db2
    if truthyInt new_manager_id && (get_user_by_id db3 new_manager_id).isNone then
      (db3, .error ("No manager found with ID: " ++ toString (new_manager_id.getD 0)))
    else
    let c4 := if truthyInt new_manager_id
      then { c3 with manager_id := new_manager_id } else c3
    let db4 := if truthyInt new_manager_id
      then Classroom.set_manager db3 c3 new_manager_id else db3
    let c5 := if truthyBool new_is_private
      then { c4 with is_private := new_is_private.getD false } else c4
    let db5 := if truthyBool new_is_private
      then Classroom.set_is_private db4 c4 (new_is_private.getD false) else db4
    (db5, .ok c5)

/-- RequestRepository.create_request: inserts a fresh row with a
server-stamped registration date and is_approved False; the caller
supplies only the two dates. -/
def create_request_row (db : DB) (start_date end_date : Int) : DB × Request :=
  let r : Request := { id := db.request_seq, start_date := start_date, end_date := end_date,
                       registration_date := db.now, is_approved := false,
                       author_id := none, classroom_id := none }
  ({ db with requests := db.requests ++ [r], request_seq := db.request_seq + 1 }, r)

/-- The loop of RequestService.create_reservation_request over
requesting_user_logins: resolve each login, raising at the first missing
user. -/
def resolve_user_logins (db : DB) : List String → Except String (List User)
  | [] => .ok []
  | login :: rest =>
    match get_user_by_login db login with
    | none => .error ("No user found with login: " ++ login)
    | some u =>
      match resolve_user_logins db rest with
      | .error e => .error e
      | .ok us => .ok (u :: us)

/-- RequestService.create_reservation_request: dates are validated before
anything else, all references are resolved before the insert, and the
inserted row carries is_approved False and the server-stamped
registration date. -/
def create_reservation_request (db : DB) (start_date end_date : Int)
    (author_id classroom_id : Int) (requesting_user_logins : List String) :
    DB × Except String Request :=
  if !(RequestRepository.validate_dates start_date end_date) then
    (db, .error "Invalid dates. The end date must be after the start date.")
  else
    match get_user_by_id db (some author_id) with
    | none => (db, .error ("No user found with author ID: " ++ toString author_id))
    | some author =>
      match get_classroom_by_id db (some classroom_id) with
      | none => (db, .error ("No classroom found with ID: " ++ toString classroom_id))
      | some classroom =>
        match resolve_user_logins db requesting_user_logins with
        | .error e => (db, .error e)
        | .ok requesting_users =>
          let p := create_request_row db start_date end_date
          let db1 := Request.set_author p.1 p.2 (some author.id)
          let db2 := Request.set_classroom db1 p.2 (some classroom.id)
          let db3 := Request.set_requesting_users db2 p.2 requesting_users
          (db3, .ok { p.2 with author_id := some author.id, classroom_id := some classroom.id })

/-- RequestService.approve_reservation_request: loads the request and the
approving manager by id and then sets is_approved True with no check of
the manager against the request. -/
def approve_reservation_request (db : DB) (request_id manager_id : Int) :
    DB × Except String Request :=
  match get_request_by_id db (some request_id) with
  | none => (db, .error ("No request found with ID: " ++ toString request_id))
  | some request_to_approve =>
    match get_user_by_id db (some manager_id) with
    | none => (db, .error ("No manager found with ID: " ++ toString manager_id))
    | some _ =>
      (Request.set_is_approved db request_to_approve true,
       .ok { request_to_approve with is_approved := true })

/-- The exact condition under which BuildingService.create_building
raises its conflict error: the first building carrying the requested name
and the first building carrying the requested address are both present
and are the same record. -/
def building_conflict (db : DB) (name address : String) : Bool :=
  match get_building_by_name db name, get_building_by_address db address with
  | some existing_by_name, some existing_by_address =>
    existing_by_name.id == existing_by_address.id
  | _, _ => false

/-- An empty database snapshot used by the concrete test states below. -/
def dbEmpty : DB :=
  { users := [], buildings := [], departments := [], classrooms := [], requests := [],
    occupied := [], requesting := [], request_seq := 1, building_seq := 1, now := 100 }

/-- A non-admin user who will manage a classroom directly. -/
def userMgr : User :=
  { id := 1, first_name := "Mia", last_name := "Lee", login := "mgr",
    registration_date := 0, is_admin := false, department_id := none }

/-- A classroom managed by userMgr, attached to no department. -/
def roomManaged : Classroom :=
  { id := 2, name := "K1", floor := 1, is_private := false,
    building_id := none, department_id := none, manager_id := some 1 }

/-- A reservation request targeting roomManaged. -/
def reqManaged : Request :=
  { id := 3, start_date := 10, end_date := 20, registration_date := 5,
    is_approved := false, author_id := some 1, classroom_id := some 2 }

/-- State for C1 and C10: userMgr manages the classroom of request 3. -/
def dbManagedRequest : DB :=
  { dbEmpty with users := [userMgr], classrooms := [roomManaged], requests := [reqManaged], request_seq := 4 }

/-- A non-admin user who will manage a department. -/
def userBoss : User :=
  { id := 1, first_name := "Bo", last_name := "Sun", login := "boss",
    registration_date := 0, is_admin := false, department_id := none }

/-- A department managed by userBoss; its id 7 is no classroom id. -/
def deptSeven : Department :=
  { id := 7, full_name := "Physics", code_name := "PH", manager_id := some 1 }

/-- A classroom belonging to deptSeven. -/
def roomOfDeptSeven : Classroom :=
  { id := 2, name := "K2", floor := 1, is_private := false,
    building_id := none, department_id := some 7, manager_id := none }

/-- A reservation request targeting roomOfDeptSeven. -/
def reqOfDeptSeven : Request :=
  { id := 3, start_date := 10, end_date := 20, registration_date := 5,
    is_approved := false, author_id := some 1, classroom_id := some 2 }

/-- State for C2: userBoss manages the department of the classroom of
request 3, and no classroom has the department id 7. -/
def dbDeptRequest : DB :=
  { dbEmpty with users := [userBoss], departments := [deptSeven], classrooms := [roomOfDeptSeven], requests := [reqOfDeptSeven], request_seq := 4 }

/-- A plain user for the update tests. -/
def userAnn : User :=
  { id := 1, first_name := "Ann", last_name := "Roe", login := "ann",
    registration_date := 0, is_admin := false, department_id := none }

/-- State for C3: one user, no departments. -/
def dbOneUser : DB :=
  { dbEmpty with users := [userAnn] }

/-- First building of the duplicate-name pair. -/
def bldNorth : Building :=
  { id := 1, name := "Alpha", address := "North Road 1" }

/-- Second building: same name as bldNorth, different address. -/
def bldSouth : Building :=
  { id := 2, name := "Alpha", address := "South Road 2" }

/-- State for C4 (counterexample): two buildings sharing the name Alpha. -/
def dbTwoAlphas : DB :=
  { dbEmpty with buildings := [bldNorth, bldSouth], building_seq := 3 }

/-- State for C4 (witness, conflict side): a single building. -/
def dbOneBuilding : DB :=
  { dbEmpty with buildings := [bldNorth], building_seq := 2 }

/-- State for C5 (witness, success side): an author and a classroom. -/
def dbAuthorRoom : DB :=
  { dbEmpty with users := [userAnn], classrooms := [roomManaged] }

/-- The request produced by the C5 witness call on dbAuthorRoom. -/
def reqCreated : Request :=
  { id := 1, start_date := 1, end_date := 2, registration_date := 100,
    is_approved := false, author_id := some 1, classroom_id := some 2 }

/-- The database state after the C5 witness call on dbAuthorRoom. -/
def dbAfterCreate : DB :=
  { dbAuthorRoom with requests := [reqCreated], request_seq := 2 }

/-- A department with no manager, for C6. -/
def deptSolo : Department :=
  { id := 1, full_name := "Math", code_name := "MA", manager_id := none }

/-- State for C6: one department and no users at all. -/
def dbDeptNoUsers : DB :=
  { dbEmpty with departments := [deptSolo] }

/-- A department managed by userAnn, for C7. -/
def deptFive : Department :=
  { id := 5, full_name := "Chem", code_name := "CH", manager_id := some 1 }

/-- deptFive after its manager has been replaced by user 9. -/
def deptFiveRevoked : Department :=
  { deptFive with manager_id := some 9 }

/-- A classroom belonging to deptFive. -/
def roomOfDeptFive : Classroom :=
  { id := 2, name := "L2", floor := 2, is_private := false,
    building_id := none, department_id := some 5, manager_id := none }

/-- State for C7, grant side: userAnn manages deptFive. -/
def dbDeptManaged : DB :=
  { dbEmpty with users := [userAnn], departments := [deptFive], classrooms := [roomOfDeptFive] }

/-- State for C7, revoke side: the manager of deptFive is user 9. -/
def dbDeptRevoked : DB :=
  { dbEmpty with users := [userAnn], departments := [deptFiveRevoked], classrooms := [roomOfDeptFive] }

/-- A pending request unrelated to any classroom or author, for C8. -/
def reqPlain : Request :=
  { id := 3, start_date := 10, end_date := 20, registration_date := 1,
    is_approved := false, author_id := none, classroom_id := none }

/-- State for C8: a request and no users. -/
def dbReqOnly : DB :=
  { dbEmpty with requests := [reqPlain], request_seq := 4 }

/-- State for C8: a request plus a user with no authority over it. -/
def dbReqUser : DB :=
  { dbReqOnly with users := [userAnn] }

/-- A private classroom, for C9. -/
def roomPrivate : Classroom :=
  { id := 4, name := "P1", floor := 0, is_private := true,
    building_id := none, department_id := none, manager_id := none }

/-- State for C9: one private classroom. -/
def dbRoomPrivate : DB :=
  { dbEmpty with classrooms := [roomPrivate] }

theorem pyIn_vInt_map_classroomObj (n : Int) (l : List Classroom) :
    pyIn (.vInt n) (l.map classroomObj) = false := by
  induction l with
  | nil => rfl
  | cons c cs ih =>
    simp only [List.map_cons, pyIn, List.any_cons] at ih ⊢
    simp [classroomObj, pyEq, ih]

theorem find?_map_overwrite {α : Type} (p q : α → Bool) (g : α → α) (l : List α) (u : α)
    (hpq : ∀ v, q v = p v) (hg : ∀ v, p (g v) = p v) (h : l.find? p = some u) :
    (l.map (fun v => if q v then g v else v)).find? p = some (g u) := by
  induction l with
  | nil => simp at h
  | cons a l ih =>
    rw [List.map_cons]
    by_cases hpa : p a = true
    · rw [List.find?_cons_of_pos _ hpa] at h
      injection h with h
      subst h
      have hqa : q a = true := by rw [hpq]; exact hpa
      rw [if_pos hqa]
      exact List.find?_cons_of_pos _ (by rw [hg]; exact hpa)
    · have hpa' : p a = false := by revert hpa; cases p a <;> simp
      rw [List.find?_cons_of_neg _ hpa] at h
      have hqa : q a = false := by rw [hpq]; exact hpa'
      rw [if_neg (by rw [hqa]; exact Bool.false_ne_true)]
      rw [List.find?_cons_of_neg _ hpa]
      exact ih h

theorem truthyStr_of_validate (s : String) (h : UserRepository.validate_name s = true) :
    truthyStr (some s) = true := by
  unfold UserRepository.validate_name at h
  simp only [Bool.and_eq_true, decide_eq_true_eq] at h
  simp only [truthyStr, bne_iff_ne, ne_eq, decide_eq_true_eq]
  omega

/-- Claim C10: for every existing user login and every integer classroom
id, the classroom-manager and classroom-occupant checks return False,
because the Python membership test compares the integer classroom id
against a list of Classroom model instances rather than their ids; hence
no caller is ever granted access through these branches of a composite
check. -/
theorem classroom_membership_checks_always_false (db : DB) (login : String)
    (classroom_id : Int) (u : User) (hu : get_user_by_login db login = some u) :
    is_user_classroom_manager db login (some classroom_id) = .ok false ∧
    is_user_classroom_occupant db login (some classroom_id) = .ok false := by
  unfold is_user_classroom_manager is_user_classroom_occupant
  rw [hu]
  constructor <;> simp [optPy, pyIn_vInt_map_classroomObj]

/-- Witness for C10 on the concrete state dbManagedRequest, where user
mgr really does manage classroom 2. -/
theorem classroom_membership_checks_witness :
    is_user_classroom_manager dbManagedRequest "mgr" (some 2) = .ok false ∧
    is_user_classroom_occupant dbManagedRequest "mgr" (some 2) = .ok false :=
  classroom_membership_checks_always_false dbManagedRequest "mgr" 2 userMgr rfl

/-- Claim C1 (code bug): in dbManagedRequest the login mgr belongs to the
manager of the classroom of request 3, so the documented composite rule
should return true, yet the code raises the access-denied error: the
classroom-manager branch always computes False (the C10 bug) and the
department branch passes the department id where a classroom id is
expected (the C2 bug). -/
theorem admin_or_manager_in_request_denies_classroom_manager :
    (get_user_by_login dbManagedRequest "mgr").map User.id = some 1 ∧
    (get_request_by_id dbManagedRequest (some 3)).map Request.classroom_id = some (some 2) ∧
    (get_classroom_by_id dbManagedRequest (some 2)).map Classroom.manager_id = some (some 1) ∧
    is_user_admin_or_manager_in_request dbManagedRequest "mgr" 3 =
      .error "Access denied. User does not have the necessary administrative or managerial rights for the request." :=
  ⟨rfl, rfl, rfl, rfl⟩

/-- Claim C2 (code bug): in dbDeptRequest the login boss is the manager
of department 7, the department of the classroom of request 3, so the
documented check should return true; but the code hands the department
id 7 to a classroom lookup, finds no classroom 7, and raises instead. -/
theorem department_manager_in_request_misroutes_department_id :
    (get_user_by_login dbDeptRequest "boss").map User.id = some 1 ∧
    (get_request_by_id dbDeptRequest (some 3)).map Request.classroom_id = some (some 2) ∧
    (get_classroom_by_id dbDeptRequest (some 2)).map Classroom.department_id = some (some 7) ∧
    (get_department_by_id dbDeptRequest (some 7)).map Department.manager_id = some (some 1) ∧
    get_classroom_by_id dbDeptRequest (some 7) = none ∧
    is_user_department_manager_in_request dbDeptRequest "boss" 3 =
      .error "Classroom does not exist." :=
  ⟨rfl, rfl, rfl, rfl, rfl, rfl⟩

/-- Counterexample to C3: updating user 1 of dbOneUser with the valid
first name Bea and the nonexistent department 99 raises the not-found
error, yet the stored first name is already Bea, not the original Ann. -/
theorem update_user_partial_write_counterexample :
    (update_user dbOneUser 1 (some "Bea") none (some 99) none).2 =
      .error "No department found with ID: 99" ∧
    (get_user_by_id (update_user dbOneUser 1 (some "Bea") none (some 99) none).1
      (some 1)).map User.first_name = some "Bea" :=
  ⟨rfl, rfl⟩

/-- Claim C3 as amended: update_user applies and commits each supplied
field in order, so when the department id does not resolve the call
raises the not-found error but the already-applied first name change
persists: the stored user carries the new first name. -/
theorem update_user_failed_department_keeps_new_first_name (db : DB) (user_id : Int)
    (fn : String) (did : Int) (u : User)
    (hu : get_user_by_id db (some user_id) = some u)
    (hfn : UserRepository.validate_name fn = true)
    (hdid : did ≠ 0)
    (hd : get_department_by_id db (some did) = none) :
    (update_user db user_id (some fn) none (some did) none).2 =
      .error ("No department found with ID: " ++ toString did) ∧
    get_user_by_id (update_user db user_id (some fn) none (some did) none).1 (some user_id) =
      some { u with first_name := fn } := by
  have hlen : (fn.length != 0) = true := truthyStr_of_validate fn hfn
  have hne : (did != 0) = true := by
    simp [bne_iff_ne, hdid]
  have hu' : db.users.find? (fun v => v.id == user_id) = some u := hu
  have huid : u.id = user_id := by
    have := List.find?_some hu'
    simpa using this
  have hdept : get_department_by_id (User.set_first_name db u fn) (some did) = none := hd
  have hmain : update_user db user_id (some fn) none (some did) none =
      (User.set_first_name db u fn,
       .error ("No department found with ID: " ++ toString did)) := by
    unfold update_user
    rw [hu]
    simp [truthyStr, truthyInt, truthyList, hlen, hne, hfn, hdept]
  rw [hmain]
  refine ⟨rfl, ?_⟩
  show get_user_by_id (User.set_first_name db u fn) (some user_id) = _
  unfold get_user_by_id User.set_first_name
  exact find?_map_overwrite (fun v => v.id == user_id) (fun v => v.id == u.id)
    (fun v => { v with first_name := fn }) db.users u
    (fun v => by rw [huid]) (fun v => rfl) hu'

/-- Witness for the amended C3 on dbOneUser. -/
theorem update_user_failed_department_witness :
    (update_user dbOneUser 1 (some "Cat") none (some 42) none).2 =
      .error ("No department found with ID: " ++ toString (42 : Int)) ∧
    get_user_by_id (update_user dbOneUser 1 (some "Cat") none (some 42) none).1 (some 1) =
      some { userAnn with first_name := "Cat" } :=
  update_user_failed_department_keeps_new_first_name dbOneUser 1 "Cat" 42 userAnn rfl
    (by decide) (by decide) rfl

/-- Counterexample to C4: dbTwoAlphas already holds a building with name
Alpha and address South Road 2, yet creating that exact pair again
succeeds and stores a duplicate, because the first building found by
name (id 1) differs from the first found by address (id 2). -/
theorem create_building_duplicate_pair_counterexample :
    (dbTwoAlphas.buildings.any (fun b => b.name == "Alpha" && b.address == "South Road 2"))
      = true ∧
    (create_building dbTwoAlphas "Alpha" "South Road 2").2 =
      .ok { id := 3, name := "Alpha", address := "South Road 2" } ∧
    (create_building dbTwoAlphas "Alpha" "South Road 2").1.buildings =
      [bldNorth, bldSouth, { id := 3, name := "Alpha", address := "South Road 2" }] :=
  ⟨rfl, rfl, rfl⟩

/-- Claim C4 as amended: for valid inputs, creation fails with the
conflict error exactly when the first existing building with the
requested name and the first existing building with the requested
address are one and the same record; in every other population,
including one that already holds the exact pair on a non-first record,
the building is inserted. -/
theorem create_building_conflict_characterization (db : DB) (name address : String)
    (hn : BuildingRepository.validate_name name = true)
    (ha : BuildingRepository.validate_address address = true) :
    (building_conflict db name address = true →
      create_building db name address = (db,
        .error ("A building with the name " ++ name ++ " at address " ++ address
          ++ " already exists."))) ∧
    (building_conflict db name address = false →
      create_building db name address =
        ({ db with
            buildings := db.buildings
              ++ [{ id := db.building_seq, name := name, address := address }],
            building_seq := db.building_seq + 1 },
         .ok { id := db.building_seq, name := name, address := address })) := by
  constructor
  · intro hc
    unfold building_conflict at hc
    unfold create_building create_building_row
    rw [hn, ha]
    split at hc
    case h_1 bn ba hbn hba =>
      simp [hc]
    case h_2 hother =>
      simp at hc
  · intro hc
    unfold building_conflict at hc
    unfold create_building create_building_row
    rw [hn, ha]
    split at hc
    case h_1 bn ba hbn hba =>
      simp [hc]
    case h_2 hother =>
      simp

/-- Witness for the amended C4: the conflict side on a single-building
state, and the insert side on the duplicate-name state. -/
theorem create_building_conflict_witness :
    create_building dbOneBuilding "Alpha" "North Road 1" = (dbOneBuilding,
      .error "A building with the name Alpha at address North Road 1 already exists.") ∧
    create_building dbTwoAlphas "Alpha" "South Road 2" =
      ({ dbTwoAlphas with
          buildings := dbTwoAlphas.buildings
            ++ [{ id := dbTwoAlphas.building_seq, name := "Alpha", address := "South Road 2" }],
          building_seq := dbTwoAlphas.building_seq + 1 },
       .ok { id := dbTwoAlphas.building_seq, name := "Alpha", address := "South Road 2" }) :=
  ⟨(create_building_conflict_characterization dbOneBuilding "Alpha" "North Road 1"
      (by decide) (by decide)).1 rfl,
   (create_building_conflict_characterization dbTwoAlphas "Alpha" "South Road 2"
      (by decide) (by decide)).2 rfl⟩

/-- Claim C5: request creation rejects start_date at or after end_date
with the validation error and no state change, and any successfully
created request has is_approved False and the server-stamped
registration date; the service signature offers the caller no way to
supply either value. -/
theorem create_reservation_request_rejects_and_defaults (db : DB) (s e a c : Int)
    (logins : List String) :
    (e ≤ s → create_reservation_request db s e a c logins =
      (db, .error "Invalid dates. The end date must be after the start date.")) ∧
    (∀ db1 r, create_reservation_request db s e a c logins = (db1, .ok r) →
      r.is_approved = false ∧ r.registration_date = db.now) := by
  constructor
  · intro hse
    have hv : RequestRepository.validate_dates s e = false := by
      unfold RequestRepository.validate_dates
      simp
      omega
    unfold create_reservation_request
    rw [hv]
    simp
  · intro db1 r h
    unfold create_reservation_request at h
    rcases hv : RequestRepository.validate_dates s e with _ | _
    · rw [hv] at h
      simp at h
    · rw [hv] at h
      simp only [Bool.not_true] at h
      rcases hau : get_user_by_id db (some a) with _ | author
      · rw [hau] at h; simp at h
      · rw [hau] at h
        rcases hcl : get_classroom_by_id db (some c) with _ | cl
        · rw [hcl] at h; simp at h
        · rw [hcl] at h
          rcases hres : resolve_user_logins db logins with msg | us
          · rw [hres] at h; simp at h
          · rw [hres] at h
            simp only [create_request_row, Request.set_author, Request.set_classroom,
              Request.set_requesting_users, Bool.false_eq_true, if_false, Prod.mk.injEq,
              Except.ok.injEq] at h
            rcases h with ⟨-, hr⟩
            subst hr
            exact ⟨rfl, rfl⟩

/-- Witness for C5: the rejection side on equal dates over dbEmpty, and
the default side on a successful call over dbAuthorRoom. -/
theorem create_reservation_request_witness :
    create_reservation_request dbEmpty 5 5 1 2 [] =
      (dbEmpty, .error "Invalid dates. The end date must be after the start date.") ∧
    (reqCreated.is_approved = false ∧ reqCreated.registration_date = dbAuthorRoom.now) :=
  ⟨(create_reservation_request_rejects_and_defaults dbEmpty 5 5 1 2 []).1 (le_refl 5),
   (create_reservation_request_rejects_and_defaults dbAuthorRoom 1 2 1 2 []).2
     dbAfterCreate reqCreated rfl⟩

/-- Counterexample to C6: on dbDeptNoUsers, updating department 1 with
the manager id 5 of a user that does not exist fails with the not-found
error and stores nothing, instead of accepting and storing the id. -/
theorem update_department_rejects_missing_manager_counterexample :
    get_user_by_id dbDeptNoUsers (some 5) = none ∧
    update_department dbDeptNoUsers 1 none none (some 5) =
      (dbDeptNoUsers, .error "No manager found with ID: 5") :=
  ⟨rfl, rfl⟩

/-- Claim C6 as amended: the department-update operation validates the
new manager id by existence exactly like the other relational fields,
raising the not-found error and leaving the state unchanged when no such
user exists; only the database column itself lacks a foreign-key
constraint. -/
theorem update_department_missing_manager_rejected (db : DB) (department_id mid : Int)
    (d : Department)
    (hd : get_department_by_id db (some department_id) = some d)
    (hm : mid ≠ 0)
    (hu : get_user_by_id db (some mid) = none) :
    update_department db department_id none none (some mid) =
      (db, .error ("No manager found with ID: " ++ toString mid)) := by
  have hne : (mid != 0) = true := by simp [bne_iff_ne, hm]
  unfold update_department
  rw [hd]
  simp [truthyStr, truthyInt, hne, hu]

/-- Witness for the amended C6 on dbDeptNoUsers. -/
theorem update_department_missing_manager_witness :
    update_department dbDeptNoUsers 1 none none (some 9) =
      (dbDeptNoUsers, .error ("No manager found with ID: " ++ toString (9 : Int))) :=
  update_department_missing_manager_rejected dbDeptNoUsers 1 9 deptSolo rfl (by decide) rfl

/-- Claim C7: for a non-admin user managing the department of a
classroom, the composite admin-or-department-manager check grants
access, and once the department manager id names a different user the
same call raises the access-denied error. -/
theorem admin_or_manager_of_department_grant_and_revoke (db : DB)
    (u : User) (c : Classroom) (d : Department)
    (hu : get_user_by_login db u.login = some u)
    (hadmin : u.is_admin = false)
    (hc : get_classroom_by_id db (some c.id) = some c)
    (hcd : c.department_id = some d.id)
    (hd : get_department_by_id db (some d.id) = some d) :
    (d.manager_id = some u.id →
      is_user_admin_or_manager_of_department_by_classroom db u.login (some c.id) = .ok true) ∧
    (∀ m, d.manager_id = some m → m ≠ u.id →
      is_user_admin_or_manager_of_department_by_classroom db u.login (some c.id) =
        .error "Access denied. User is neither an administrator nor a manager of the specified department.") := by
  have hadmchk : is_user_admin db u.login =
      .error "Access denied. User is not an administrator." := by
    unfold is_user_admin
    rw [hu]
    simp [hadmin]
  have hmgr : is_user_manager_of_department_by_classroom db u.login (some c.id) =
      .ok (d.manager_id == some u.id) := by
    unfold is_user_manager_of_department_by_classroom
    rw [hu, hc]
    show (match get_department_by_id db c.department_id with
      | none => Except.error "Department does not exist."
      | some department => Except.ok (department.manager_id == some u.id)) = _
    rw [hcd, hd]
  constructor
  · intro hmid
    unfold is_user_admin_or_manager_of_department_by_classroom
    rw [hadmchk, hmgr, hmid]
    simp [try_check]
  · intro m hmid hne
    unfold is_user_admin_or_manager_of_department_by_classroom
    rw [hadmchk, hmgr, hmid]
    simp [try_check, hne]

/-- Witness for C7: the grant on dbDeptManaged, the revocation on
dbDeptRevoked where the manager id was replaced by user 9. -/
theorem admin_or_manager_of_department_witness :
    is_user_admin_or_manager_of_department_by_classroom dbDeptManaged "ann" (some 2) =
      .ok true ∧
    is_user_admin_or_manager_of_department_by_classroom dbDeptRevoked "ann" (some 2) =
      .error "Access denied. User is neither an administrator nor a manager of the specified department." :=
  ⟨(admin_or_manager_of_department_grant_and_revoke dbDeptManaged userAnn roomOfDeptFive
      deptFive rfl rfl rfl rfl rfl).1 rfl,
   (admin_or_manager_of_department_grant_and_revoke dbDeptRevoked userAnn roomOfDeptFive
      deptFiveRevoked rfl rfl rfl rfl rfl).2 9 rfl (by decide)⟩

/-- Claim C8: request approval raises the not-found error and leaves the
state untouched when the request or the approving manager is missing,
and for any existing request and any existing manager it sets
is_approved True with no condition relating the manager to the request. -/
theorem approve_reservation_request_spec (db : DB) (request_id manager_id : Int) :
    (get_request_by_id db (some request_id) = none →
      approve_reservation_request db request_id manager_id =
        (db, .error ("No request found with ID: " ++ toString request_id))) ∧
    (∀ req, get_request_by_id db (some request_id) = some req →
      get_user_by_id db (some manager_id) = none →
      approve_reservation_request db request_id manager_id =
        (db, .error ("No manager found with ID: " ++ toString manager_id))) ∧
    (∀ req mgr, get_request_by_id db (some request_id) = some req →
      get_user_by_id db (some manager_id) = some mgr →
      approve_reservation_request db request_id manager_id =
        (Request.set_is_approved db req true, .ok { req with is_approved := true }) ∧
      get_request_by_id (Request.set_is_approved db req true) (some request_id) =
        some { req with is_approved := true }) := by
  refine ⟨?_, ?_, ?_⟩
  · intro h
    unfold approve_reservation_request
    rw [h]
  · intro req hreq hmgr
    unfold approve_reservation_request
    rw [hreq, hmgr]
  · intro req mgr hreq hmgr
    have hreq' : db.requests.find? (fun v => v.id == request_id) = some req := hreq
    have hid : req.id = request_id := by
      have := List.find?_some hreq'
      simpa using this
    constructor
    · unfold approve_reservation_request
      rw [hreq, hmgr]
    · show (Request.set_is_approved db req true).requests.find?
        (fun v => v.id == request_id) = _
      unfold Request.set_is_approved
      exact find?_map_overwrite (fun v => v.id == request_id) (fun v => v.id == req.id)
        (fun v => { v with is_approved := true }) db.requests req
        (fun v => by rw [hid]) (fun v => rfl) hreq'

/-- Witness for C8: missing request on dbEmpty, missing manager on
dbReqOnly, and unconditional approval on dbReqUser, whose only user has
no relation to the request. -/
theorem approve_reservation_request_witness :
    approve_reservation_request dbEmpty 3 1 =
      (dbEmpty, .error ("No request found with ID: " ++ toString (3 : Int))) ∧
    approve_reservation_request dbReqOnly 3 1 =
      (dbReqOnly, .error ("No manager found with ID: " ++ toString (1 : Int))) ∧
    (approve_reservation_request dbReqUser 3 1 =
      (Request.set_is_approved dbReqUser reqPlain true, .ok { reqPlain with is_approved := true }) ∧
     get_request_by_id (Request.set_is_approved dbReqUser reqPlain true) (some 3) =
      some { reqPlain with is_approved := true }) :=
  ⟨(approve_reservation_request_spec dbEmpty 3 1).1 rfl,
   (approve_reservation_request_spec dbReqOnly 3 1).2.1 reqPlain rfl rfl,
   (approve_reservation_request_spec dbReqUser 3 1).2.2 reqPlain userAnn rfl rfl⟩

/-- Claim C9: updating an existing classroom with new_is_private False
changes nothing at all: the falsy value is treated as not supplied, so
the stored is_private keeps its current value and the whole state is
returned unchanged. -/
theorem update_classroom_false_is_private_noop (db : DB) (classroom_id : Int) (c : Classroom)
    (hc : get_classroom_by_id db (some classroom_id) = some c) :
    update_classroom db classroom_id none none none none (some false) = (db, .ok c) := by
  unfold update_classroom
  rw [hc]
  rfl

/-- Witness for C9 on dbRoomPrivate, whose classroom is private. -/
theorem update_classroom_false_is_private_witness :
    update_classroom dbRoomPrivate 4 none none none none (some false) =
      (dbRoomPrivate, .ok roomPrivate) :=
  update_classroom_false_is_private_noop dbRoomPrivate 4 roomPrivate rfl
